import Mathlib

/-!
Verification of the advanced SystemVerilog synthesis engine of
PCILeechFWGenerator (`src/advanced_sv_main.py`).

The development shallowly embeds the text-generation functions of
`AdvancedSVGenerator` as Lean functions over `List String` (mirroring the
Python code, which accumulates lines in a list and joins them with a
newline), and separately embeds, as explicit step functions on small state
records, the synchronous semantics of the `always_ff` blocks whose text the
generator emits.  Machine integers are modelled as `Nat` with explicit
`% 2 ^ w` where the hardware or Python applies wraparound; the Python float
arithmetic of the variance perturbation is modelled exactly over `ℚ`.
Python string formatting `f"...{n:08X}"` is modelled by `hex08X`.
-/

namespace PCILeech

/-- The banner comment line `//====....====` (78 equals signs) used by the
generated headers. -/
def bannerLine : String :=
  ⟨Char.ofNat 47 :: Char.ofNat 47 :: List.replicate 78 (Char.ofNat 61)⟩

/-- A register descriptor, as consumed by `AdvancedSVGenerator`: the Python
code reads the dict keys `name`, `offset`, `value` and `rw` of every entry
of `regs`.  `offset` and `value` model the integers obtained by
`int(reg["offset"], 16)` / `int(reg["value"], 16)`. -/
structure Reg where
  name : String
  offset : Nat
  value : Nat
  rw : String
deriving DecidableEq, Repr

/-- Modelled from the spec: the `VarianceModel` class lives in
`manufacturing_variance.py`, which is not part of the sources at hand; the
spec describes it as holding a timing-jitter magnitude in nanoseconds
(`jitterNs`), and `advanced_sv_main.py` consumes exactly the field
`register_timing_jitter_ns` of it.  The Python float is modelled as `ℚ`. -/
structure VarianceModel where
  register_timing_jitter_ns : ℚ
deriving DecidableEq

/-- Device types, from `advanced_sv_perf.DeviceType` as used by
`_generate_device_specific_ports`. -/
inductive DeviceType where
  | GENERIC
  | NETWORK_CONTROLLER
  | STORAGE_CONTROLLER
  | GRAPHICS_CONTROLLER
deriving DecidableEq

/-- Uppercase hexadecimal digit, as used by Python `%X` formatting. -/
def hexDigitChar (n : Nat) : Char :=
  if n < 10 then Char.ofNat (48 + n) else Char.ofNat (55 + n)

/-- Hex digits of `n` (most significant first), fuel-based recursion. -/
def hexDigitsAux : Nat → Nat → List Char
  | 0, _ => []
  | fuel + 1, n => if n = 0 then [] else hexDigitsAux fuel (n / 16) ++ [hexDigitChar (n % 16)]

/-- Python `f"{n:08X}"`: uppercase hex, zero-padded to at least 8 digits. -/
def hex08X (n : Nat) : String :=
  let ds := hexDigitsAux n n
  ⟨List.replicate (8 - ds.length) (Char.ofNat 48) ++ ds⟩

/-- The perturbation factor `1.0 + (random.random() - 0.5) * 0.01` of
`generate_register_logic`, with `r` the value drawn from the random source
(`random.random()` yields `r` with `0 ≤ r < 1`). -/
def varianceFactor (r : ℚ) : ℚ :=
  1 + (r - 1 / 2) * (1 / 100)

/-- The perturbed initial value
`int(initial_value * variance_factor) & 0xFFFFFFFF` of
`generate_register_logic` (truncation of a nonnegative product, then 32-bit
wraparound). -/
def variedValue (v : Nat) (r : ℚ) : Nat :=
  (Rat.floor ((v : ℚ) * varianceFactor r)).toNat % 4294967296

/-- The delay-counter seed `max(1, int(timing_variance / 10))` computed by
`generate_register_logic` when a variance model is present. -/
def baseDelay (vm : VarianceModel) : Nat :=
  max 1 (Rat.floor (vm.register_timing_jitter_ns / 10)).toNat

/-- Name of the register that is special-cased in `generate_register_logic`. -/
def shadowStatusName : String := "pcileech_tlps128_cfgspace_shadow_status"

/-- Declaration line emitted for the shadow-status register. -/
def regDeclShadow (name : String) : String :=
  "    logic [31:0] " ++ name ++ "_reg = 32\x27h1;"

/-- Declaration line emitted when a variance model is present. -/
def regDeclVar (name : String) (v : Nat) (r : ℚ) : String :=
  "    logic [31:0] " ++ name ++ "_reg = 32\x27h" ++ hex08X (variedValue v r) ++ ";"

/-- Declaration line emitted when no variance model is present. -/
def regDeclPlain (name : String) (v : Nat) : String :=
  "    logic [31:0] " ++ name ++ "_reg = 32\x27h" ++ hex08X v ++ ";"

/-- The two timing-control signal lines emitted after every declaration. -/
def timingSignalLines (name : String) : List String :=
  ["    logic " ++ name ++ "_access_pending = 1\x27b0;",
   "    logic [7:0] " ++ name ++ "_timing_counter = 8\x27h0;"]

/-- Register-declaration loop of `generate_register_logic`: the shadow-status
register always gets the literal `32'h1`; otherwise, with a variance model
present, one value is drawn from the random source (modelled as the stream
`rand`, consumed at successive indices) per register; otherwise the plain
configured value is used. -/
def regDeclLines : Option VarianceModel → (Nat → ℚ) → List Reg → Nat → List String
  | _, _, [], _ => []
  | vm, rand, r :: rest, i =>
    if r.name = shadowStatusName then
      (regDeclShadow r.name :: timingSignalLines r.name) ++ regDeclLines vm rand rest i
    else
      match vm with
      | some _ =>
          (regDeclVar r.name r.value (rand i) :: timingSignalLines r.name)
            ++ regDeclLines vm rand rest (i + 1)
      | none =>
          (regDeclPlain r.name r.value :: timingSignalLines r.name)
            ++ regDeclLines vm rand rest i

/-- The fixed global-access-timing block emitted by
`generate_register_logic` (source lines 246-267). -/
def globalTimingLines : List String :=
  ["    // Global register access timing",
   "    always_ff @(posedge clk or negedge reset_n) begin",
   "        if (!reset_n) begin",
   "            register_access_timer <= 32\x27h0;",
   "            register_write_pending <= 1\x27b0;",
   "        end else begin",
   "            register_access_timer <= register_access_timer + 1;",
   "            ",
   "            if (bar_wr_en && !register_write_pending) begin",
   "                register_write_pending <= 1\x27b1;",
   "            end else if (register_write_pending && register_access_timer[3:0] == 4\x27hF) begin",
   "                register_write_pending <= 1\x27b0;",
   "            end",
   "        end",
   "    end",
   ""]

/-- Per-register write block of `generate_register_logic` (emitted only for
`rw`/`wo` registers); the variance branch emits the PENDING state machine,
the no-variance branch emits a same-cycle commit. -/
def writeBlockLines (vm : Option VarianceModel) (r : Reg) : List String :=
  ["    // Write logic for " ++ r.name,
   "    always_ff @(posedge clk or negedge reset_n) begin",
   "        if (!reset_n) begin",
   "            " ++ r.name ++ "_reg <= 32\x27h" ++ hex08X r.value ++ ";",
   "            " ++ r.name ++ "_timing_counter <= 8\x27h0;",
   "            " ++ r.name ++ "_access_pending <= 1\x27b0;",
   "        end else if (bar_wr_en && bar_addr == 32\x27h" ++ hex08X r.offset ++ ") begin"]
  ++ (match vm with
      | some m =>
          ["            " ++ r.name ++ "_access_pending <= 1\x27b1;",
           "            " ++ r.name ++ "_timing_counter <= 8\x27d" ++ toString (baseDelay m) ++ ";",
           "        end else if (" ++ r.name ++ "_access_pending) begin",
           "            if (" ++ r.name ++ "_timing_counter > 0) begin",
           "                " ++ r.name ++ "_timing_counter <= " ++ r.name ++ "_timing_counter - 1;",
           "            end else begin",
           "                " ++ r.name ++ "_reg <= bar_wr_data;",
           "                " ++ r.name ++ "_access_pending <= 1\x27b0;",
           "            end"]
      | none =>
          ["            " ++ r.name ++ "_reg <= bar_wr_data;"])
  ++ ["        end",
      "    end",
      ""]

/-- Write-logic loop of `generate_register_logic`: one block per register
whose access mode is `rw` or `wo`. -/
def writeBlocks (vm : Option VarianceModel) : List Reg → List String
  | [] => []
  | r :: rest =>
      (if r.rw = "rw" ∨ r.rw = "wo" then writeBlockLines vm r else []) ++ writeBlocks vm rest

/-- The line list built by `generate_register_logic(regs, variance_model)`;
`rand` models the stream of `random.random()` draws. -/
def register_logic_lines (regs : List Reg) (vm : Option VarianceModel) (rand : Nat → ℚ) :
    List String :=
  ["    // Advanced Register Access Logic",
   "    logic [31:0] register_access_timer = 32\x27h0;",
   "    logic register_write_pending = 1\x27b0;",
   "",
   "    // Register Declarations"]
  ++ regDeclLines vm rand regs 0
  ++ [""]
  ++ globalTimingLines
  ++ writeBlocks vm regs

/-- The string returned by `generate_register_logic` (`"\n".join(...)`). -/
def generate_register_logic (regs : List Reg) (vm : Option VarianceModel) (rand : Nat → ℚ) :
    String :=
  String.intercalate "\n" (register_logic_lines regs vm rand)

/-- The fixed head of the read-logic case table (source lines 332-374):
twelve fixed non-default entries, preceded by boilerplate and interleaved
with comment/blank lines. -/
def readFixedLines : List String :=
  ["    // Main read logic with advanced features",
   "    always_comb begin",
   "        bar_rd_data = 32\x27h0;",
   "        ",
   "        unique case(bar_addr)",
   "            // Power management registers",
   "            32\x27h00000000: bar_rd_data = \x7b30\x27b0, current_power_state\x7d;",
   "            32\x27h00000004: bar_rd_data = \x7b30\x27b0, current_link_state\x7d;",
   "            ",
   "            // Error status registers",
   "            32\x27h00000008: bar_rd_data = \x7b24\x27b0, error_status\x7d;",
   "            32\x27h0000000C: bar_rd_data = \x7b24\x27b0, error_code\x7d;",
   "            ",
   "            // Performance counter registers",
   "            32\x27h00000010: bar_rd_data = perf_counter_0;",
   "            32\x27h00000014: bar_rd_data = perf_counter_1;",
   "            32\x27h00000018: bar_rd_data = perf_counter_2;",
   "            32\x27h0000001C: bar_rd_data = perf_counter_3;",
   "            ",
   "            // Device identification",
   "            32\x27h00000020: bar_rd_data = 32\x27hADVANCED;  // Advanced controller signature",
   "            32\x27h00000024: bar_rd_data = \x7b16\x27h0, DEVICE_TYPE[15:0]\x7d;",
   "            ",
   "            // Advanced status registers",
   "            32\x27h00000028: bar_rd_data = \x7b24\x27b0, performance_grade\x7d;",
   "            32\x27h0000002C: bar_rd_data = \x7b29\x27b0, high_bandwidth_detected, high_latency_detected, high_error_rate_detected\x7d;",
   "            "]

/-- The case-table entry emitted for one register by `generate_read_logic`. -/
def caseLine (r : Reg) : String :=
  "            32\x27h" ++ hex08X r.offset ++ ": bar_rd_data = " ++ r.name ++ "_reg;"

/-- The fixed tail of the read logic: the single all-zero default branch and
closing boilerplate. -/
def readTailLines : List String :=
  ["            ",
   "            default: bar_rd_data = 32\x27h0;",
   "        endcase",
   "    end",
   ""]

/-- The line list built by `generate_read_logic(regs)`: fixed entries first,
then one entry per register in iteration order, then the default branch. -/
def read_logic_lines (regs : List Reg) : List String :=
  readFixedLines ++ regs.map caseLine ++ readTailLines

/-- The string returned by `generate_read_logic`. -/
def generate_read_logic (regs : List Reg) : String :=
  String.intercalate "\n" (read_logic_lines regs)

/-- The constant line list built by `generate_interrupt_logic`. -/
def interrupt_logic_lines : List String :=
  ["    // Advanced Interrupt Handling",
   "    logic interrupt_pending = 1\x27b0;",
   "    logic [7:0] interrupt_vector = 8\x27h0;",
   "    logic [3:0] interrupt_priority = 4\x27h0;",
   "",
   "    // Interrupt generation logic",
   "    always_ff @(posedge clk or negedge reset_n) begin",
   "        if (!reset_n) begin",
   "            interrupt_pending <= 1\x27b0;",
   "            interrupt_vector <= 8\x27h0;",
   "            interrupt_priority <= 4\x27h0;",
   "        end else begin",
   "            // Priority-based interrupt handling",
   "            if (uncorrectable_error) begin",
   "                interrupt_pending <= 1\x27b1;",
   "                interrupt_vector <= 8\x27h02;  // High priority",
   "                interrupt_priority <= 4\x27hF;",
   "            end else if (correctable_error) begin",
   "                interrupt_pending <= 1\x27b1;",
   "                interrupt_vector <= 8\x27h01;  // Medium priority",
   "                interrupt_priority <= 4\x27h8;",
   "            end else if (bar_wr_en || bar_rd_en) begin",
   "                interrupt_pending <= 1\x27b1;",
   "                interrupt_vector <= 8\x27h00;  // Low priority",
   "                interrupt_priority <= 4\x27h4;",
   "            end else if (msi_ack) begin",
   "                interrupt_pending <= 1\x27b0;",
   "                interrupt_vector <= 8\x27h0;",
   "                interrupt_priority <= 4\x27h0;",
   "            end",
   "        end",
   "    end",
   "",
   "    // Interrupt output assignments",
   "    assign msi_request = interrupt_pending && cfg_interrupt_msi_enable;",
   "    assign msi_vector = interrupt_vector;",
   "    assign cfg_interrupt = interrupt_pending && !cfg_interrupt_msi_enable;",
   ""]

/-- The string returned by `generate_interrupt_logic`. -/
def generate_interrupt_logic : String :=
  String.intercalate "\n" interrupt_logic_lines

/-- The constant line list built by `generate_clock_domain_logic` (its
`variance_model` argument is never read). -/
def clock_domain_lines (_vm : Option VarianceModel) : List String :=
  ["    // Clock Domain Management",
   "    logic [15:0] clk_monitor_counter = 16\x27h0;",
   "    logic [15:0] mem_clk_monitor_counter = 16\x27h0;",
   "    logic [15:0] aux_clk_monitor_counter = 16\x27h0;",
   "    logic [2:0] clock_domain_status = 3\x27b111;",
   "    logic mem_clk_valid = 1\x27b1;",
   "    logic aux_clk_valid = 1\x27b1;",
   "",
   "    // Clock domain monitoring",
   "    always_ff @(posedge clk or negedge reset_n) begin",
   "        if (!reset_n) begin",
   "            clk_monitor_counter <= 16\x27h0;",
   "        end else begin",
   "            clk_monitor_counter <= clk_monitor_counter + 1;",
   "        end",
   "    end",
   "",
   "    // Clock domain status",
   "    assign clock_domain_status = \x7baux_clk_valid, mem_clk_valid, 1\x27b1\x7d;",
   ""]

/-- The string returned by `generate_clock_domain_logic`. -/
def generate_clock_domain_logic (vm : Option VarianceModel) : String :=
  String.intercalate "\n" (clock_domain_lines vm)

/-- The header literal of `generate_module_header`.  The Python assigns a
plain (non-f) triple-quoted string, so the `{self...}` interpolation markers
are part of the text verbatim. -/
def module_header_lines : List String :=
  [bannerLine,
   "// Advanced PCIe Device Controller with Comprehensive Features",
   "// Generated by AdvancedSVGenerator - Advanced SystemVerilog Generation Feature",
   "//",
   "// Features:",
   "// - Advanced power management (D0-D3, L0-L3 states)",
   "// - Comprehensive error handling and recovery",
   "// - Hardware performance counters",
   "// - Multiple clock domain support",
   "// - Device-specific optimizations (\x7bself.device_config.device_type.value\x7d)",
   "// - Manufacturing variance integration",
   bannerLine,
   "",
   "// State machine definitions",
   "\x60define S_SHADOW_CFGSPACE_IDLE  2\x27b00",
   "\x60define S_SHADOW_CFGSPACE_TLP   2\x27b01",
   "\x60define S_SHADOW_CFGSPACE_USB   2\x27b10",
   "",
   "module advanced_pcileech_controller #(",
   "    parameter DEVICE_TYPE = \"\x7bself.device_config.device_type.value\x7d\",",
   "    parameter DEVICE_CLASS = \"\x7bself.device_config.device_class.value\x7d\",",
   "    parameter MAX_PAYLOAD_SIZE = \x7bself.device_config.max_payload_size\x7d,",
   "    parameter MSI_VECTORS = \x7bself.device_config.msi_vectors\x7d,",
   "    parameter COUNTER_WIDTH = \x7bself.perf_config.counter_width_bits\x7d",
   ") (",
   "    // Clock and reset",
   "    input logic clk,",
   "    input logic reset_n,",
   "",
   "    // Additional clock domains",
   "    input logic mem_clk,",
   "    input logic aux_clk,",
   "",
   "    // PCIe interface",
   "    input logic [31:0] bar_addr,",
   "    input logic [31:0] bar_wr_data,",
   "    input logic bar_wr_en,",
   "    input logic bar_rd_en,",
   "    output logic [31:0] bar_rd_data,",
   "",
   "    // Power management interface",
   "    input logic [1:0] power_state_req,",
   "    output logic [1:0] power_state_ack,",
   "    input logic [1:0] link_state_req,",
   "    output logic [1:0] link_state_ack,",
   "",
   "    // Interrupt interface",
   "    output logic msi_request,",
   "    input logic msi_ack,",
   "    output logic [7:0] msi_vector,",
   "    input logic cfg_interrupt_msi_enable,",
   "    output logic cfg_interrupt,",
   "    input logic cfg_interrupt_ready,",
   "",
   "    // Error reporting interface",
   "    output logic correctable_error,",
   "    output logic uncorrectable_error,",
   "    output logic [7:0] error_code,",
   "",
   "    // Performance monitoring interface",
   "    output logic [COUNTER_WIDTH-1:0] perf_counter_0,",
   "    output logic [COUNTER_WIDTH-1:0] perf_counter_1,",
   "    output logic [COUNTER_WIDTH-1:0] perf_counter_2,",
   "    output logic [COUNTER_WIDTH-1:0] perf_counter_3,",
   "",
   "    // Device-specific interfaces",
   "    \x7bself._generate_device_specific_ports()\x7d",
   ");"]

/-- The string returned by `generate_module_header`. -/
def generate_module_header : String :=
  String.intercalate "\n" module_header_lines

/-- Port block for network controllers (`_generate_device_specific_ports`). -/
def network_ports_lines : List String :=
  ["// Network controller ports",
   "    output logic link_up,",
   "    output logic [1:0] link_speed,",
   "    input logic [7:0] phy_data,",
   "    output logic [7:0] mac_data"]

/-- Port block for storage controllers. -/
def storage_ports_lines : List String :=
  ["// Storage controller ports",
   "    output logic storage_ready,",
   "    output logic [7:0] queue_depth,",
   "    input logic [31:0] sector_addr,",
   "    output logic [31:0] data_out"]

/-- Port block for graphics controllers. -/
def graphics_ports_lines : List String :=
  ["// Graphics controller ports",
   "    output logic display_active,",
   "    output logic [7:0] gpu_utilization,",
   "    input logic [23:0] pixel_data,",
   "    output logic vsync, hsync"]

/-- Port block for generic devices (the fallback branch). -/
def generic_ports_lines : List String :=
  ["// Generic device ports",
   "    output logic device_ready,",
   "    input logic [31:0] generic_input,",
   "    output logic [31:0] generic_output"]

/-- The string returned by `_generate_device_specific_ports`. -/
def generate_device_specific_ports (dt : DeviceType) : String :=
  match dt with
  | DeviceType.NETWORK_CONTROLLER => String.intercalate "\n" network_ports_lines
  | DeviceType.STORAGE_CONTROLLER => String.intercalate "\n" storage_ports_lines
  | DeviceType.GRAPHICS_CONTROLLER => String.intercalate "\n" graphics_ports_lines
  | DeviceType.GENERIC => String.intercalate "\n" generic_ports_lines

/-- The `module_content` literal of `generate_advanced_systemverilog`.  The
Python assigns a plain (non-f) triple-quoted string and returns it without
ever calling `.format(...)` on it, so the `{...}` placeholders and the
doubled braces of the clock-crossing module remain verbatim in the returned
text. -/
def module_content_lines : List String :=
  ["\x7bmodule_header\x7d",
   "",
   "\x7bpower_management\x7d",
   "",
   "\x7berror_handling\x7d",
   "",
   "\x7bperformance_counters\x7d",
   "",
   "\x7bclock_domains\x7d",
   "",
   "\x7binterrupt_handling\x7d",
   "",
   "\x7bregister_logic\x7d",
   "",
   "\x7bread_logic\x7d",
   "",
   "endmodule",
   "",
   bannerLine,
   "// Advanced Clock Domain Crossing Module",
   bannerLine,
   "module advanced_clock_crossing #(",
   "    parameter DATA_WIDTH = 32,",
   "    parameter SYNC_STAGES = 3",
   ") (",
   "    input logic src_clk,",
   "    input logic dst_clk,",
   "    input logic reset_n,",
   "    input logic [DATA_WIDTH-1:0] src_data,",
   "    input logic src_valid,",
   "    output logic src_ready,",
   "    output logic [DATA_WIDTH-1:0] dst_data,",
   "    output logic dst_valid,",
   "    input logic dst_ready",
   ");",
   "",
   "    // Implementation of advanced clock domain crossing with variance compensation",
   "    logic [SYNC_STAGES-1:0] sync_reg;",
   "    logic [DATA_WIDTH-1:0] data_reg;",
   "    logic valid_reg;",
   "",
   "    // Source domain logic",
   "    always_ff @(posedge src_clk or negedge reset_n) begin",
   "        if (!reset_n) begin",
   "            data_reg <= \x270;",
   "            valid_reg <= 1\x27b0;",
   "        end else if (src_valid && src_ready) begin",
   "            data_reg <= src_data;",
   "            valid_reg <= 1\x27b1;",
   "        end else if (sync_reg[SYNC_STAGES-1]) begin",
   "            valid_reg <= 1\x27b0;",
   "        end",
   "    end",
   "",
   "    // Destination domain synchronizer",
   "    always_ff @(posedge dst_clk or negedge reset_n) begin",
   "        if (!reset_n) begin",
   "            sync_reg <= \x270;",
   "        end else begin",
   "            sync_reg <= \x7b\x7bsync_reg[SYNC_STAGES-2:0], valid_reg\x7d\x7d;",
   "        end",
   "    end",
   "",
   "    assign src_ready = !valid_reg || sync_reg[SYNC_STAGES-1];",
   "    assign dst_data = data_reg;",
   "    assign dst_valid = sync_reg[SYNC_STAGES-1] && dst_ready;",
   "",
   "endmodule",
   ""]

/-- The `module_content` string (the value `generate_advanced_systemverilog`
returns). -/
def module_content : String :=
  String.intercalate "\n" module_content_lines

/-- The synthesis entry point `generate_advanced_systemverilog(regs,
variance_model)`.  The Python method first calls every component generator
(header, power, error, performance, clock domains, interrupts, register
logic, read logic) but binds none of the results, then returns the
`module_content` literal unchanged.  The power/error/performance component
generators live in modules outside the sources at hand; their results are
discarded exactly like the in-module ones, so they are not modelled. -/
def generate_advanced_systemverilog (regs : List Reg) (vm : Option VarianceModel)
    (rand : Nat → ℚ) : String :=
  let _hdr := generate_module_header
  let _clk := generate_clock_domain_logic vm
  let _irq := generate_interrupt_logic
  let _rl := generate_register_logic regs vm rand
  let _rd := generate_read_logic regs
  module_content

/-!
Synchronous semantics of the emitted `always_ff` blocks, transcribed from
the line lists above.  Each step function consumes the input values of one
clock cycle and produces the register state after the corresponding
`posedge`; nonblocking assignments all take effect at the end of the cycle.
-/

/-- State of one emitted per-register write machine: the stored value
`<name>_reg`, the `<name>_access_pending` bit and the 8-bit
`<name>_timing_counter`. -/
structure WriteState where
  reg : Nat
  pending : Bool
  counter : Nat
deriving DecidableEq, Repr

/-- One clock cycle of the variance-mode write block emitted by
`generate_register_logic` (`writeBlockLines (some vm) r`): on reset the
configured value is restored; on a strobe (`bar_wr_en && bar_addr ==
offset`) the machine enters PENDING with the counter seeded to the emitted
8-bit literal `8'd(baseDelay vm)`; while PENDING the counter decrements,
and at its expiration the current `bar_wr_data` bus value is committed. -/
def writeRegStep (seed resetVal : Nat) (s : WriteState) (resetn strobe : Bool)
    (data : Nat) : WriteState :=
  if !resetn then ⟨resetVal % 4294967296, false, 0⟩
  else if strobe then { s with pending := true, counter := seed % 256 }
  else if s.pending then
    if 0 < s.counter then { s with counter := s.counter - 1 }
    else { reg := data % 4294967296, pending := false, counter := s.counter }
  else s

/-- One clock cycle of the no-variance write block (`writeBlockLines none
r`): a strobe commits `bar_wr_data` in the same cycle; there is no PENDING
machinery in the emitted text at all. -/
def writeRegStepNoVar (resetVal v : Nat) (resetn strobe : Bool) (data : Nat) : Nat :=
  if !resetn then resetVal % 4294967296
  else if strobe then data % 4294967296
  else v

/-- A run of the variance-mode write machine: one strobe cycle carrying
`strobeData` on the bus, followed by `n` strobe-free cycles during which the
bus holds `busData`. -/
def varianceWriteRun (vm : VarianceModel) (resetVal : Nat) (s : WriteState)
    (strobeData busData : Nat) (n : Nat) : WriteState :=
  (fun st => writeRegStep (baseDelay vm) resetVal st true false busData)^[n]
    (writeRegStep (baseDelay vm) resetVal s true true strobeData)

/-- State of the emitted interrupt arbitration machine
(`interrupt_logic_lines`): `interrupt_pending`, `interrupt_vector` (8 bit)
and `interrupt_priority` (4 bit). -/
structure IntState where
  pending : Bool
  vector : Nat
  priority : Nat
deriving DecidableEq, Repr

/-- One clock cycle of the emitted interrupt arbitration `always_ff`:
priority chain uncorrectable > correctable > bus access, with `msi_ack`
evaluated last. -/
def interruptStep (s : IntState) (resetn unc corr wr rd ack : Bool) : IntState :=
  if !resetn then ⟨false, 0, 0⟩
  else if unc then ⟨true, 0x02, 0xF⟩
  else if corr then ⟨true, 0x01, 0x8⟩
  else if wr || rd then ⟨true, 0x00, 0x4⟩
  else if ack then ⟨false, 0, 0⟩
  else s

/-- State of the emitted global register-access timing block
(`globalTimingLines`): the 32-bit free-running `register_access_timer` and
the `register_write_pending` bit. -/
structure GlobalTimingState where
  timer : Nat
  pending : Bool
deriving DecidableEq, Repr

/-- One clock cycle of the emitted global timing `always_ff`: the timer
free-runs; a strobe while idle sets the pending bit; while pending the bit
clears in the cycle whose (pre-increment) timer has low nibble `4'hF`. -/
def globalTimingStep (s : GlobalTimingState) (resetn wr : Bool) : GlobalTimingState :=
  if !resetn then ⟨0, false⟩
  else
    ⟨(s.timer + 1) % 4294967296,
     if wr && !s.pending then true
     else if s.pending && decide (s.timer % 16 = 15) then false
     else s.pending⟩

/-- A run of the global timing block: one strobe cycle starting from timer
value `t` with the pending bit clear, followed by `n` strobe-free cycles. -/
def globalTimingRun (t n : Nat) : GlobalTimingState :=
  (fun s => globalTimingStep s true false)^[n] (globalTimingStep ⟨t, false⟩ true true)

/-- Values of the module signals read by the fixed entries of the emitted
address-decode table.  The entry at `32'h00000020` assigns `32'hADVANCED`,
which is not a well-formed SystemVerilog literal (digits beyond `F`); it is
modelled as the opaque environment value `advanced_signature`. -/
structure ReadEnv where
  current_power_state : Nat
  current_link_state : Nat
  error_status : Nat
  error_code : Nat
  perf_counter_0 : Nat
  perf_counter_1 : Nat
  perf_counter_2 : Nat
  perf_counter_3 : Nat
  advanced_signature : Nat
  device_type_tag : Nat
  performance_grade : Nat
  high_bandwidth_detected : Nat
  high_latency_detected : Nat
  high_error_rate_detected : Nat

/-- Combinational semantics of the emitted `unique case(bar_addr)` table of
`generate_read_logic`: the twelve fixed entries are matched first in their
emitted order, then the per-register entries in register order (first match
wins), then the all-zero default branch. -/
def readLogicSem (env : ReadEnv) (regs : List Reg) (vals : String → Nat)
    (addr : Nat) : Nat :=
  if addr = 0x00000000 then env.current_power_state % 4
  else if addr = 0x00000004 then env.current_link_state % 4
  else if addr = 0x00000008 then env.error_status % 256
  else if addr = 0x0000000C then env.error_code % 256
  else if addr = 0x00000010 then env.perf_counter_0 % 4294967296
  else if addr = 0x00000014 then env.perf_counter_1 % 4294967296
  else if addr = 0x00000018 then env.perf_counter_2 % 4294967296
  else if addr = 0x0000001C then env.perf_counter_3 % 4294967296
  else if addr = 0x00000020 then env.advanced_signature % 4294967296
  else if addr = 0x00000024 then env.device_type_tag % 65536
  else if addr = 0x00000028 then env.performance_grade % 256
  else if addr = 0x0000002C then
    (env.high_bandwidth_detected % 2) * 4 + (env.high_latency_detected % 2) * 2
      + env.high_error_rate_detected % 2
  else
    match regs.find? (fun r => r.offset == addr) with
    | some r => vals r.name % 4294967296
    | none => 0

/-- The register descriptor of the spec scenario:
`{name="ctrl", offset=0x00000030, mode=rw, reset=0x00000000}`. -/
def ctrlReg : Reg := ⟨"ctrl", 0x00000030, 0x00000000, "rw"⟩

/-- A read-only register sharing offset `0x00000030` with `ctrlReg`. -/
def statusReg : Reg := ⟨"status", 0x00000030, 0x00000000, "ro"⟩

/-- A register collection with an address collision at `0x00000030`. -/
def collidingRegs : List Reg := [ctrlReg, statusReg]

/-- A concrete all-zero signal environment for the read-logic semantics. -/
def zeroEnv : ReadEnv := ⟨0, 0, 0, 0, 0, 0, 0, 0, 0, 0, 0, 0, 0, 0⟩

/-!
Helper lemmas shared by several claim theorems.
-/

/-- Bridge between the executable `Rat.floor` and the `FloorRing` floor. -/
lemma rat_floor_eq (q : ℚ) : Rat.floor q = ⌊q⌋ := rfl

/-- The delay seed for the spec's `jitterNs = 25` model: `max(1, 25 div 10) = 2`. -/
lemma baseDelay_25 : baseDelay ⟨25⟩ = 2 := by
  unfold baseDelay
  have h : ((25 : ℚ) / 10) = ((25 : ℕ) : ℚ) / ((10 : ℕ) : ℚ) := by norm_num
  rw [rat_floor_eq, h, Rat.floor_natCast_div_natCast]
  decide

/-- While the seeded counter has not expired, the variance-mode write machine
keeps the stored value, stays PENDING, and counts down: after the strobe and
`m ≤ seed` further cycles the state is `⟨v, true, seed - m⟩`. -/
lemma varianceWriteRun_le_seed (vm : VarianceModel) (resetVal v c A B m : Nat)
    (hm : m ≤ baseDelay vm % 256) :
    varianceWriteRun vm resetVal ⟨v, false, c⟩ A B m
      = ⟨v, true, baseDelay vm % 256 - m⟩ := by
  induction m with
  | zero =>
    simp [varianceWriteRun, writeRegStep]
  | succ n ih =>
    have hn : n ≤ baseDelay vm % 256 := Nat.le_of_succ_le hm
    have hstep : varianceWriteRun vm resetVal ⟨v, false, c⟩ A B (n + 1)
        = writeRegStep (baseDelay vm) resetVal
            (varianceWriteRun vm resetVal ⟨v, false, c⟩ A B n) true false B := by
      unfold varianceWriteRun
      rw [Function.iterate_succ_apply']
    have hlt : 0 < baseDelay vm % 256 - n := by omega
    rw [hstep, ih hn]
    simp [writeRegStep, hlt]
    omega

/-- At the cycle after counter expiration the machine commits the current
bus value `B` and leaves PENDING. -/
lemma varianceWriteRun_commit (vm : VarianceModel) (resetVal v c A B : Nat) :
    varianceWriteRun vm resetVal ⟨v, false, c⟩ A B (baseDelay vm % 256 + 1)
      = ⟨B % 4294967296, false, 0⟩ := by
  have h := varianceWriteRun_le_seed vm resetVal v c A B (baseDelay vm % 256) le_rfl
  have hstep : varianceWriteRun vm resetVal ⟨v, false, c⟩ A B (baseDelay vm % 256 + 1)
      = writeRegStep (baseDelay vm) resetVal
          (varianceWriteRun vm resetVal ⟨v, false, c⟩ A B (baseDelay vm % 256)) true false B := by
    unfold varianceWriteRun
    rw [Function.iterate_succ_apply']
  rw [hstep, h]
  simp [writeRegStep]

/-- With no variance model the register-declaration loop never consumes the
random source, so the emitted lines are independent of it. -/
lemma regDeclLines_none_rand_irrelevant (regs : List Reg) (r1 r2 : Nat → ℚ) (i j : Nat) :
    regDeclLines none r1 regs i = regDeclLines none r2 regs j := by
  induction regs generalizing i j with
  | nil => rfl
  | cons hd tl ih =>
    by_cases h : hd.name = shadowStatusName <;>
      (simp [regDeclLines, h]; exact ih i j)

/-- The full no-variance register-logic line list is independent of the
random source. -/
lemma register_logic_lines_none_rand (regs : List Reg) (rand : Nat → ℚ) :
    register_logic_lines regs none rand = register_logic_lines regs none (fun _ => 0) := by
  unfold register_logic_lines
  rw [regDeclLines_none_rand_irrelevant regs rand (fun _ => 0) 0 0]

/-- Divisibility used to reduce the 32-bit timer modulo 16. -/
lemma sixteen_dvd : (16 : ℕ) ∣ 4294967296 := ⟨268435456, by norm_num⟩

/-- Until the free-running timer's low nibble reaches `0xF`, the global
write-pending bit stays set: after a strobe at timer value `t` and `m`
further cycles with `m ≤ 15 - (t+1) % 16`, the state is
`⟨(t+1+m) % 2^32, true⟩`. -/
lemma globalTimingRun_le_phase (t m : Nat) (hm : m ≤ 15 - (t + 1) % 16) :
    globalTimingRun t m = ⟨(t + 1 + m) % 4294967296, true⟩ := by
  induction m with
  | zero =>
    simp [globalTimingRun, globalTimingStep]
  | succ n ih =>
    have hn : n ≤ 15 - (t + 1) % 16 := Nat.le_of_succ_le hm
    have hstep : globalTimingRun t (n + 1)
        = globalTimingStep (globalTimingRun t n) true false := by
      unfold globalTimingRun
      rw [Function.iterate_succ_apply']
    have hmod : (t + 1 + n) % 4294967296 % 16 = (t + 1 + n) % 16 :=
      Nat.mod_mod_of_dvd _ sixteen_dvd
    have hne : (t + 1 + n) % 16 ≠ 15 := by omega
    rw [hstep, ih hn]
    simp [globalTimingStep, hmod, hne]
    omega

/-!
Claim theorems.
-/

/-- C1 (code bug): for the well-formed single-register collection
`[ctrlReg]` (unique names, offset disjoint from the fixed `0x00`-`0x2C`
set), the entry point `generate_advanced_systemverilog` returns the
`module_content` template with its placeholders unexpanded: the
address-decode entry for `ctrl` is produced by `generate_read_logic` but
never appears in the returned module text, contradicting the spec's claim
that the returned text contains the decode table.  The method computes all
fragments and discards them, leaving `{read_logic}` verbatim in the
output. -/
theorem c1_decode_table_never_reaches_output :
    generate_advanced_systemverilog [ctrlReg] none (fun _ => 0) = module_content
    ∧ caseLine ctrlReg = "            32\x27h00000030: bar_rd_data = ctrl_reg;"
    ∧ caseLine ctrlReg ∈ read_logic_lines [ctrlReg]
    ∧ caseLine ctrlReg ∉ module_content_lines
    ∧ "\x7bread_logic\x7d" ∈ module_content_lines :=
  ⟨rfl, by decide, by decide, by decide, by decide⟩

/-- C2 (counterexample): with two descriptors sharing offset `0x00000030`,
synthesis does not fail: it returns the module text, and the read logic
emits a distinct case entry for each of the two colliding registers instead
of raising a `ConfigurationError`. -/
theorem c2_counterexample_collision_emits_output :
    generate_advanced_systemverilog collidingRegs none (fun _ => 0) = module_content
    ∧ caseLine ctrlReg ∈ read_logic_lines collidingRegs
    ∧ caseLine statusReg ∈ read_logic_lines collidingRegs
    ∧ caseLine ctrlReg ≠ caseLine statusReg :=
  ⟨rfl, by decide, by decide, by decide⟩

/-- C2 (amended): address collisions are not detected.  Given two
descriptors sharing offset `0x00000030`, generation succeeds and emits one
case entry per register in iteration order — the two colliding entries both
appear in the table — and in the emitted first-match case semantics a read
at `0x30` silently returns the first register's value, shadowing the
second. -/
theorem c2_amended_collisions_silently_shadow (env : ReadEnv) (vals : String → Nat) :
    read_logic_lines collidingRegs
      = readFixedLines ++ [caseLine ctrlReg, caseLine statusReg] ++ readTailLines
    ∧ readLogicSem env collidingRegs vals 0x00000030 = vals "ctrl" % 4294967296 :=
  ⟨rfl, rfl⟩

/-- C2 (witness): the amended theorem instantiated at the all-zero
environment and a concrete value assignment. -/
theorem c2_amended_witness :
    read_logic_lines collidingRegs
      = readFixedLines ++ [caseLine ctrlReg, caseLine statusReg] ++ readTailLines
    ∧ readLogicSem zeroEnv collidingRegs (fun _ => 5) 0x00000030 = (fun _ : String => 5) "ctrl" % 4294967296 :=
  c2_amended_collisions_silently_shadow zeroEnv (fun _ => 5)

/-- C3 (counterexample): with `jitterNs = 25` the seed is 2, but the stored
value has not yet been updated 2 cycles after the strobe (the machine is
still PENDING with the counter at 0); the commit happens exactly 3 cycles
after the strobe. -/
theorem c3_counterexample_commit_not_two_cycles :
    baseDelay ⟨25⟩ = 2
    ∧ (varianceWriteRun ⟨25⟩ 0 ⟨0, false, 0⟩ 0xDEADBEEF 0xDEADBEEF 2).reg ≠ 0xDEADBEEF
    ∧ varianceWriteRun ⟨25⟩ 0 ⟨0, false, 0⟩ 0xDEADBEEF 0xDEADBEEF 2 = ⟨0, true, 0⟩
    ∧ varianceWriteRun ⟨25⟩ 0 ⟨0, false, 0⟩ 0xDEADBEEF 0xDEADBEEF 3
        = ⟨0xDEADBEEF, false, 0⟩ := by
  refine ⟨baseDelay_25, ?_, ?_, ?_⟩ <;>
    · unfold varianceWriteRun
      rw [baseDelay_25]
      decide

/-- C3 (amended): with a variance model the write machine seeds its delay
counter with `max(1, jitter_ns div 10)` (as an 8-bit literal) at the
IDLE-to-PENDING transition, and the stored value is updated exactly
`seed + 1` cycles after the strobe and not earlier: for every
`m ≤ seed` the value is still the old one and the machine is PENDING, and
at `seed + 1` cycles the write data is committed.  With `jitterNs = 25`
the seed is 2 and the commit lands 3 cycles after the strobe. -/
theorem c3_amended_commit_after_seed_plus_one (vm : VarianceModel)
    (resetVal v c data m : Nat) (hm : m ≤ baseDelay vm % 256) :
    (varianceWriteRun vm resetVal ⟨v, false, c⟩ data data m).reg = v
    ∧ (varianceWriteRun vm resetVal ⟨v, false, c⟩ data data m).pending = true
    ∧ varianceWriteRun vm resetVal ⟨v, false, c⟩ data data (baseDelay vm % 256 + 1)
        = ⟨data % 4294967296, false, 0⟩ := by
  rw [varianceWriteRun_le_seed vm resetVal v c data data m hm,
      varianceWriteRun_commit vm resetVal v c data data]
  exact ⟨rfl, rfl, rfl⟩

/-- C3 (witness): the amended theorem at `jitterNs = 25`, initial value 7,
write data `0xDEADBEEF`, checked at `m = 2 = seed`. -/
theorem c3_amended_witness :
    (varianceWriteRun ⟨25⟩ 0 ⟨7, false, 0⟩ 0xDEADBEEF 0xDEADBEEF 2).reg = 7
    ∧ (varianceWriteRun ⟨25⟩ 0 ⟨7, false, 0⟩ 0xDEADBEEF 0xDEADBEEF 2).pending = true
    ∧ varianceWriteRun ⟨25⟩ 0 ⟨7, false, 0⟩ 0xDEADBEEF 0xDEADBEEF (baseDelay ⟨25⟩ % 256 + 1)
        = ⟨0xDEADBEEF % 4294967296, false, 0⟩ :=
  c3_amended_commit_after_seed_plus_one ⟨25⟩ 0 7 0 0xDEADBEEF 2 (by rw [baseDelay_25])

/-- C4 (counterexample): with configured value `0xFFFFFFFF` and random draw
`r = 3/5` (a legal `random.random()` value, giving factor 1.001), the
perturbed value wraps around 32 bits to 4294966, which is far outside
±0.5% of the configured value — the claim's bound fails after
wraparound. -/
theorem c4_counterexample_wraparound :
    (0 ≤ (3/5 : ℚ) ∧ (3/5 : ℚ) < 1)
    ∧ variedValue 4294967295 (3/5) = 4294966
    ∧ ¬ ((995/1000 : ℚ) * 4294967295 ≤ (variedValue 4294967295 (3/5) : ℚ)
         ∧ (variedValue 4294967295 (3/5) : ℚ) ≤ (1005/1000 : ℚ) * 4294967295) := by
  have hval : variedValue 4294967295 (3/5) = 4294966 := by
    unfold variedValue varianceFactor
    have h : (((4294967295 : ℕ) : ℚ) * (1 + ((3/5 : ℚ) - 1/2) * (1/100)))
        = ((4299262262295 : ℕ) : ℚ) / ((1000 : ℕ) : ℚ) := by norm_num
    rw [rat_floor_eq, h, Rat.floor_natCast_div_natCast]
    decide
  refine ⟨⟨by norm_num, by norm_num⟩, hval, ?_⟩
  rw [hval]
  intro hb
  have := hb.1
  norm_num at this

/-- C4 (amended): when the scaled value does not overflow 32 bits, the
perturbed reset value lies within ±0.5% of the configured value up to the
one-unit truncation introduced by `int(...)`
(`0.995·v - 1 ≤ varied ≤ 1.005·v`); when the product reaches `2^32`,
wraparound can place it arbitrarily far outside the band.  The register
named `pcileech_tlps128_cfgspace_shadow_status` always receives the literal
reset constant 1 regardless of the variance model and the random draw. -/
theorem c4_amended_bound_without_wraparound (v : Nat) (r : ℚ)
    (h0 : 0 ≤ r) (h1 : r < 1)
    (hov : (v : ℚ) * varianceFactor r < 4294967296) :
    ((995/1000 : ℚ) * v - 1 ≤ (variedValue v r : ℚ))
    ∧ ((variedValue v r : ℚ) ≤ (1005/1000 : ℚ) * v)
    ∧ (∀ (vm : VarianceModel) (rand : Nat → ℚ) (off val i : Nat) (mode : String),
        regDeclLines (some vm) rand [⟨shadowStatusName, off, val, mode⟩] i
          = regDeclShadow shadowStatusName :: timingSignalLines shadowStatusName) := by
  have hfl : (995/1000 : ℚ) ≤ varianceFactor r := by
    unfold varianceFactor; linarith
  have hfu : varianceFactor r ≤ (1005/1000 : ℚ) := by
    unfold varianceFactor; linarith
  have hv0 : (0 : ℚ) ≤ (v : ℚ) := Nat.cast_nonneg v
  have hx0 : (0 : ℚ) ≤ (v : ℚ) * varianceFactor r :=
    mul_nonneg hv0 (by linarith)
  have hfloor0 : 0 ≤ ⌊(v : ℚ) * varianceFactor r⌋ := Int.floor_nonneg.2 hx0
  have hfloorle : (⌊(v : ℚ) * varianceFactor r⌋ : ℚ) ≤ (v : ℚ) * varianceFactor r :=
    Int.floor_le _
  have hfloorgt : (v : ℚ) * varianceFactor r - 1 < (⌊(v : ℚ) * varianceFactor r⌋ : ℚ) :=
    Int.sub_one_lt_floor _
  have hflt : ⌊(v : ℚ) * varianceFactor r⌋ < (4294967296 : ℤ) := by
    have : ((⌊(v : ℚ) * varianceFactor r⌋ : ℤ) : ℚ) < ((4294967296 : ℤ) : ℚ) := by
      push_cast
      linarith
    exact_mod_cast this
  have htn : (⌊(v : ℚ) * varianceFactor r⌋).toNat < 4294967296 := by omega
  have hval : variedValue v r = (⌊(v : ℚ) * varianceFactor r⌋).toNat := by
    unfold variedValue varianceFactor
    rw [rat_floor_eq]
    exact Nat.mod_eq_of_lt htn
  have hcast : ((variedValue v r : ℕ) : ℚ) = (⌊(v : ℚ) * varianceFactor r⌋ : ℚ) := by
    rw [hval]
    have : ((⌊(v : ℚ) * varianceFactor r⌋).toNat : ℤ) = ⌊(v : ℚ) * varianceFactor r⌋ :=
      Int.toNat_of_nonneg hfloor0
    exact_mod_cast this
  refine ⟨?_, ?_, ?_⟩
  · rw [hcast]
    have : (995/1000 : ℚ) * v ≤ (v : ℚ) * varianceFactor r := by
      calc (995/1000 : ℚ) * v = (v : ℚ) * (995/1000) := by ring
        _ ≤ (v : ℚ) * varianceFactor r := mul_le_mul_of_nonneg_left hfl hv0
    linarith
  · rw [hcast]
    have : (v : ℚ) * varianceFactor r ≤ (1005/1000 : ℚ) * v := by
      calc (v : ℚ) * varianceFactor r ≤ (v : ℚ) * (1005/1000) :=
            mul_le_mul_of_nonneg_left hfu hv0
        _ = (1005/1000 : ℚ) * v := by ring
    linarith
  · intro vm rand off val i mode
    simp [regDeclLines]

/-- C4 (witness): the amended bound at configured value 1000 with the
central draw `r = 1/2` (perturbation factor exactly 1). -/
theorem c4_amended_witness :
    ((995/1000 : ℚ) * (1000 : ℕ) - 1 ≤ (variedValue 1000 (1/2) : ℚ))
    ∧ ((variedValue 1000 (1/2) : ℚ) ≤ (1005/1000 : ℚ) * (1000 : ℕ))
    ∧ (∀ (vm : VarianceModel) (rand : Nat → ℚ) (off val i : Nat) (mode : String),
        regDeclLines (some vm) rand [⟨shadowStatusName, off, val, mode⟩] i
          = regDeclShadow shadowStatusName :: timingSignalLines shadowStatusName) :=
  c4_amended_bound_without_wraparound 1000 (1/2) (by norm_num) (by norm_num)
    (by unfold varianceFactor; norm_num)

/-- C5: in the emitted interrupt arbitration machine, simultaneous
uncorrectable and correctable error triggers (outside reset) always yield
the pending state with vector `0x02` and priority `0xF` (uncorrectable
wins), and the acknowledgment can clear PENDING back to IDLE only in a
cycle where none of the three trigger conditions (uncorrectable error,
correctable error, bus read/write access) is true. -/
theorem c5_interrupt_priority_and_ack_clear :
    (∀ (s : IntState) (wr rd ack : Bool),
      interruptStep s true true true wr rd ack = ⟨true, 0x02, 0xF⟩)
    ∧ (∀ (s : IntState) (unc corr wr rd ack : Bool),
        s.pending = true →
        (interruptStep s true unc corr wr rd ack).pending = false →
        unc = false ∧ corr = false ∧ wr = false ∧ rd = false ∧ ack = true) := by
  constructor
  · intro s wr rd ack
    simp [interruptStep]
  · intro s unc corr wr rd ack hp hcl
    cases unc <;> cases corr <;> cases wr <;> cases rd <;> cases ack <;>
      simp_all [interruptStep]

/-- C5 (witness): the clearing direction applied at the concrete pending
state `⟨true, 0, 4⟩` with only the acknowledgment asserted. -/
theorem c5_witness :
    false = false ∧ false = false ∧ false = false ∧ false = false ∧ true = true :=
  c5_interrupt_priority_and_ack_clear.2 ⟨true, 0, 4⟩ false false false false true rfl
    (by decide)

/-- C6: with no variance model the synthesis run is a deterministic pure
function of its inputs: two runs over the same register list but arbitrary
(different) random sources produce byte-identical entry-point output, and
the register-logic fragment itself is also identical because the random
source is never consumed on the no-variance path. -/
theorem c6_no_variance_determinism (regs : List Reg) (rand1 rand2 : Nat → ℚ) :
    generate_advanced_systemverilog regs none rand1
      = generate_advanced_systemverilog regs none rand2
    ∧ register_logic_lines regs none rand1 = register_logic_lines regs none rand2
    ∧ generate_register_logic regs none rand1 = generate_register_logic regs none rand2 := by
  have hl : register_logic_lines regs none rand1 = register_logic_lines regs none rand2 := by
    unfold register_logic_lines
    rw [regDeclLines_none_rand_irrelevant regs rand1 rand2 0 0]
  exact ⟨rfl, hl, by unfold generate_register_logic; rw [hl]⟩

/-- C6 (witness): determinism instantiated at the single-register list and
two distinct concrete random sources. -/
theorem c6_witness :
    generate_advanced_systemverilog [ctrlReg] none (fun _ => 0)
      = generate_advanced_systemverilog [ctrlReg] none (fun _ => 1/2)
    ∧ register_logic_lines [ctrlReg] none (fun _ => 0)
        = register_logic_lines [ctrlReg] none (fun _ => 1/2)
    ∧ generate_register_logic [ctrlReg] none (fun _ => 0)
        = generate_register_logic [ctrlReg] none (fun _ => 1/2) :=
  c6_no_variance_determinism [ctrlReg] (fun _ => 0) (fun _ => 1/2)

/-- C7: for the single descriptor `ctrl` at `0x30` (mode rw, reset 0) with
no variance model, the emitted write block contains no PENDING machinery at
all (the generation-time branch omits it), a write strobe carrying
`0xDEADBEEF` commits in the same cycle, and a subsequent read at `0x30`
returns `0xDEADBEEF` through the emitted decode table. -/
theorem c7_ctrl_same_cycle_scenario (rand : Nat → ℚ) (env : ReadEnv) (v : Nat) :
    "            ctrl_access_pending <= 1\x27b1;" ∉ register_logic_lines [ctrlReg] none rand
    ∧ writeBlockLines none ctrlReg =
        ["    // Write logic for ctrl",
         "    always_ff @(posedge clk or negedge reset_n) begin",
         "        if (!reset_n) begin",
         "            ctrl_reg <= 32\x27h00000000;",
         "            ctrl_timing_counter <= 8\x27h0;",
         "            ctrl_access_pending <= 1\x27b0;",
         "        end else if (bar_wr_en && bar_addr == 32\x27h00000030) begin",
         "            ctrl_reg <= bar_wr_data;",
         "        end",
         "    end",
         ""]
    ∧ writeRegStepNoVar 0 v true true 0xDEADBEEF = 0xDEADBEEF
    ∧ readLogicSem env [ctrlReg] (fun n => if n = "ctrl" then 0xDEADBEEF else 0) 0x00000030
        = 0xDEADBEEF := by
  refine ⟨?_, by decide, rfl, rfl⟩
  rw [register_logic_lines_none_rand]
  decide

/-- C7 (witness): the scenario at a concrete random source, the all-zero
environment and initial stored value 3. -/
theorem c7_witness :
    "            ctrl_access_pending <= 1\x27b1;" ∉ register_logic_lines [ctrlReg] none (fun _ => 0)
    ∧ writeBlockLines none ctrlReg =
        ["    // Write logic for ctrl",
         "    always_ff @(posedge clk or negedge reset_n) begin",
         "        if (!reset_n) begin",
         "            ctrl_reg <= 32\x27h00000000;",
         "            ctrl_timing_counter <= 8\x27h0;",
         "            ctrl_access_pending <= 1\x27b0;",
         "        end else if (bar_wr_en && bar_addr == 32\x27h00000030) begin",
         "            ctrl_reg <= bar_wr_data;",
         "        end",
         "    end",
         ""]
    ∧ writeRegStepNoVar 0 3 true true 0xDEADBEEF = 0xDEADBEEF
    ∧ readLogicSem zeroEnv [ctrlReg] (fun n => if n = "ctrl" then 0xDEADBEEF else 0) 0x00000030
        = 0xDEADBEEF :=
  c7_ctrl_same_cycle_scenario (fun _ => 0) zeroEnv 3

/-- C8 (counterexample): starting from timer value 14 (low nibble `0xE`)
with the pending bit clear, a strobe asserts the global write-pending
indicator, and it is already deasserted one cycle later — not 16 cycles
later — because the free-running timer's low nibble reaches `0xF`
immediately; in particular it is no longer high 15 cycles after assertion,
refuting the exactly-16-cycle window. -/
theorem c8_counterexample_one_cycle_window :
    (globalTimingRun 14 0).pending = true
    ∧ (globalTimingRun 14 1).pending = false
    ∧ ¬ ((globalTimingRun 14 15).pending = true ∧ (globalTimingRun 14 16).pending = false) := by
  refine ⟨by decide, by decide, ?_⟩
  intro h
  exact absurd h.1 (by decide)

/-- C8 (amended): a strobe arriving while the indicator is idle asserts it,
and it stays asserted until the first subsequent cycle whose free-running
timer value has low nibble `0xF`: starting from timer value `t`, the
indicator is still high `m` cycles after the strobe for every
`m ≤ 15 - (t+1) mod 16`, is deasserted at `15 - (t+1) mod 16 + 1` cycles,
and that window never exceeds 16 cycles (it ranges from 1 to 16 depending
on the timer phase at assertion, rather than being exactly 16). -/
theorem c8_amended_window_is_timer_phase_dependent (t m : Nat)
    (hm : m ≤ 15 - (t + 1) % 16) :
    (globalTimingRun t m).pending = true
    ∧ (globalTimingRun t (15 - (t + 1) % 16 + 1)).pending = false
    ∧ 15 - (t + 1) % 16 + 1 ≤ 16 := by
  refine ⟨by rw [globalTimingRun_le_phase t m hm], ?_, by omega⟩
  have hstep : globalTimingRun t (15 - (t + 1) % 16 + 1)
      = globalTimingStep (globalTimingRun t (15 - (t + 1) % 16)) true false := by
    unfold globalTimingRun
    rw [Function.iterate_succ_apply']
  have hmod : (t + 1 + (15 - (t + 1) % 16)) % 4294967296 % 16
      = (t + 1 + (15 - (t + 1) % 16)) % 16 :=
    Nat.mod_mod_of_dvd _ sixteen_dvd
  have heq : (t + 1 + (15 - (t + 1) % 16)) % 16 = 15 := by omega
  rw [hstep, globalTimingRun_le_phase t (15 - (t + 1) % 16) le_rfl]
  simp [globalTimingStep, hmod, heq]

/-- C8 (witness): the amended window property at timer value 0 (a full
15-cycle residual window), checked immediately after the strobe. -/
theorem c8_amended_witness :
    (globalTimingRun 0 0).pending = true
    ∧ (globalTimingRun 0 (15 - (0 + 1) % 16 + 1)).pending = false
    ∧ 15 - (0 + 1) % 16 + 1 ≤ 16 :=
  c8_amended_window_is_timer_phase_dependent 0 0 (by decide)

/-- C9: the entry point returns the same constant string for every register
list, variance model and random source — the `module_content` assembly
template with its `{module_header}`, `{register_logic}`, `{read_logic}` and
other placeholders left unexpanded — and the per-component texts computed
inside the method (register logic, read logic) never appear in the
result. -/
theorem c9_output_is_unexpanded_template (regs regs2 : List Reg)
    (vm vm2 : Option VarianceModel) (rand rand2 : Nat → ℚ) :
    generate_advanced_systemverilog regs vm rand = module_content
    ∧ generate_advanced_systemverilog regs vm rand
        = generate_advanced_systemverilog regs2 vm2 rand2
    ∧ "\x7bmodule_header\x7d" ∈ module_content_lines
    ∧ "\x7bregister_logic\x7d" ∈ module_content_lines
    ∧ "\x7bread_logic\x7d" ∈ module_content_lines
    ∧ "    // Advanced Register Access Logic" ∈ register_logic_lines regs vm rand
    ∧ "    // Advanced Register Access Logic" ∉ module_content_lines
    ∧ "    // Main read logic with advanced features" ∈ read_logic_lines regs
    ∧ "    // Main read logic with advanced features" ∉ module_content_lines := by
  refine ⟨rfl, rfl, by decide, by decide, by decide, ?_, by decide, ?_, by decide⟩
  · simp [register_logic_lines]
  · simp [read_logic_lines, readFixedLines]

/-- C9 (witness): the template property instantiated at two visibly
different input triples (empty vs. one-register list, no variance vs. a
`jitterNs = 25` model, distinct random sources). -/
theorem c9_witness :
    generate_advanced_systemverilog [] none (fun _ => 0) = module_content
    ∧ generate_advanced_systemverilog [] none (fun _ => 0)
        = generate_advanced_systemverilog [ctrlReg] (some ⟨25⟩) (fun _ => 1)
    ∧ "\x7bmodule_header\x7d" ∈ module_content_lines
    ∧ "\x7bregister_logic\x7d" ∈ module_content_lines
    ∧ "\x7bread_logic\x7d" ∈ module_content_lines
    ∧ "    // Advanced Register Access Logic" ∈ register_logic_lines [] none (fun _ => 0)
    ∧ "    // Advanced Register Access Logic" ∉ module_content_lines
    ∧ "    // Main read logic with advanced features" ∈ read_logic_lines []
    ∧ "    // Main read logic with advanced features" ∉ module_content_lines :=
  c9_output_is_unexpanded_template [] [ctrlReg] none (some ⟨25⟩) (fun _ => 0) (fun _ => 1)

/-- C10: in the variance-mode write machine, a strobe (from any state,
including PENDING) only re-seeds the counter and re-enters PENDING without
touching the stored value, and the value committed at counter expiration is
the bus value of the expiration cycle (`B`), not the value that was on the
bus at the strobe (`A`): no emitted signal latches the write data at the
IDLE-to-PENDING transition. -/
theorem c10_commit_uses_expiration_bus_value (vm : VarianceModel)
    (resetVal v c A B : Nat) (s : WriteState) :
    writeRegStep (baseDelay vm) resetVal s true true A
      = ⟨s.reg, true, baseDelay vm % 256⟩
    ∧ varianceWriteRun vm resetVal ⟨v, false, c⟩ A B (baseDelay vm % 256 + 1)
      = ⟨B % 4294967296, false, 0⟩ :=
  ⟨by simp [writeRegStep], varianceWriteRun_commit vm resetVal v c A B⟩

/-- C10 (witness): the commit-data property at `jitterNs = 25` with strobe
data 0x1111 and expiration-cycle bus data 0x2222, from a PENDING source
state. -/
theorem c10_witness :
    writeRegStep (baseDelay ⟨25⟩) 0 ⟨9, true, 5⟩ true true 0x1111
      = ⟨(⟨9, true, 5⟩ : WriteState).reg, true, baseDelay ⟨25⟩ % 256⟩
    ∧ varianceWriteRun ⟨25⟩ 0 ⟨9, false, 5⟩ 0x1111 0x2222 (baseDelay ⟨25⟩ % 256 + 1)
      = ⟨0x2222 % 4294967296, false, 0⟩ :=
  c10_commit_uses_expiration_bus_value ⟨25⟩ 0 9 5 0x1111 0x2222 ⟨9, true, 5⟩

end PCILeech
